import Mathlib

/-!
Shallow embedding of `src/main.py` from the repository
`update_or_remove_finding_tags`: a one-shot batch script that
authenticates to a findings API, resolves a project namespace, lists
findings carrying an old tag, and patches each finding replacing the old
tag by a new one.

Modelling conventions:
* Python strings become `String`; `len` is `String.length` (code points).
* Python `dict.get(k)` / `dict.get(k, default)` become `Option` lookups
  with `Option.getD` for defaults.
* HTTP exchanges are modelled by response values (status code, raw body,
  parsed JSON fields) supplied as parameters: each call site consumes the
  response to the single request it issues.
* `raise` becomes `Except.error`; the messages are the exact f-string
  renderings from the source.
* `print` output that the claims talk about is accumulated in
  `List String` logs, in program order.
-/

namespace UpdateFindingTags

/-- Character class of the regex `[A-Za-z0-9=@_.-]` in `validate_tag`
(src/main.py line 23). -/
def isValidTagChar (c : Char) : Bool :=
  ('A' ≤ c && c ≤ 'Z') || ('a' ≤ c && c ≤ 'z') || ('0' ≤ c && c ≤ '9') ||
  c == '=' || c == '@' || c == '_' || c == '.' || c == '-'

/-- Semantics of Python `re.match(r'^[A-Za-z0-9=@_.-]+$', tag) is not None`.
In Python, `$` matches at the end of the string or just before a newline
at the end of the string, so the pattern matches `tag` exactly when the
string obtained by dropping one trailing newline (if any) is non-empty and
consists only of characters of the class. -/
def tag_regex_matches (s : List Char) : Bool :=
  let core := if s.getLast? == some '\n' then s.dropLast else s
  !core.isEmpty && core.all isValidTagChar

/-- `validate_tag(tag, tag_name)` (src/main.py lines 14-27): empty check,
length check, then the regex check; raises `ValueError` with the exact
messages of the source, else returns `True`. -/
def validate_tag (tag : String) (tag_name : String) : Except String Bool :=
  if tag.length == 0 then
    Except.error (tag_name ++ " cannot be empty")
  else if tag.length > 63 then
    Except.error (tag_name ++ " must be 63 characters or less (current: " ++
      toString tag.length ++ " characters)")
  else if tag_regex_matches tag.toList then
    Except.ok true
  else
    Except.error (tag_name ++
      " may contain only letters (A-Z), numbers (0-9), and the following characters (=@_.-)")

/-- The tag recomputation inside the per-finding loop of
`update_finding_tags` (src/main.py lines 136-144): remove the first
occurrence of the old tag if present (Python `list.remove`), then append
the new tag if it is not already present. -/
def recompute_tags (old_tag new_tag : String) (tags : List String) : List String :=
  let t := if old_tag ∈ tags then tags.erase old_tag else tags
  if new_tag ∈ t then t else t ++ [new_tag]

example : recompute_tags "dev-repo" "prod-repo" ["dev-repo", "critical"] =
    ["critical", "prod-repo"] := by decide

example : validate_tag "abc" "Old tag" = Except.ok true := by rfl

example : validate_tag "a\n" "Old tag" = Except.ok true := by rfl

example : validate_tag "" "Old tag" = Except.error "Old tag cannot be empty" := by rfl

/-- Rendering of a Python value in an f-string where the value may be
`None` (e.g. `f"Bearer {token}"` with `token = None` gives `"Bearer None"`). -/
def py_str : Option String → String
  | none => "None"
  | some s => s

/-- The `Authorization` header value built at src/main.py lines 52, 84 and
126: `f"Bearer {token}"`. -/
def auth_header (token : Option String) : String := "Bearer " ++ py_str token

/-- Response to the `POST /auth/api-key` request of `get_token`: HTTP
status, raw text body, and the parsed JSON object as key/value pairs. -/
structure AuthResponse where
  status : Nat
  body : String
  json : List (String × String)
deriving Repr

/-- `dict.get(key)` on a parsed JSON object: `none` when absent. -/
def json_get (j : List (String × String)) (key : String) : Option String :=
  (j.find? (fun kv => kv.1 == key)).map (fun kv => kv.2)

/-- `get_token()` (src/main.py lines 29-45) applied to the response of the
single POST it makes: on HTTP 200 return `response.json().get('token')`
(which is `none` when the field is absent), otherwise raise. -/
def get_token (r : AuthResponse) : Except String (Option String) :=
  if r.status == 200 then
    Except.ok (json_get r.json "token")
  else
    Except.error ("Failed to get token: " ++ toString r.status ++ ", " ++ r.body)

/-- One network exchange against an oracle of queued responses: the call
consumes exactly the first response (requests are synchronous, one
response per request); an empty oracle means the transport itself failed,
which the script does not handle. -/
def http_exchange {α : Type} : List α → Option (α × List α)
  | [] => none
  | r :: rest => some (r, rest)

/-- `get_token` run against the response oracle: it performs exactly one
POST, consuming one response, with no retry on failure. -/
def get_token_run (oracle : List AuthResponse) :
    Option ((Except String (Option String)) × List AuthResponse) :=
  (http_exchange oracle).map (fun p => (get_token p.1, p.2))

/-- A project object of the `GET .../projects` listing, reduced to the
field the script reads: `project.get('tenant_meta', {}).get('namespace')`. -/
structure ProjectObj where
  tenant_namespace : Option String
deriving Repr

/-- Response to the projects listing request of `get_project_namespace`:
HTTP status, raw body, and `response.json().get('list', {}).get('objects', [])`. -/
structure ProjectsResponse where
  status : Nat
  body : String
  objects : List ProjectObj
deriving Repr

/-- `get_project_namespace(project_uuid)` (src/main.py lines 47-76) applied
to the response of its GET: on 200 with an empty list raise not-found; on
200 with a non-empty list return the first project's tenant namespace (no
ambiguity check); on non-200 raise with status and body. -/
def get_project_namespace (project_uuid : String) (resp : ProjectsResponse) :
    Except String (Option String) :=
  if resp.status == 200 then
    match resp.objects with
    | [] => Except.error ("No project found with UUID: " ++ project_uuid)
    | p :: _ => Except.ok p.tenant_namespace
  else
    Except.error ("Failed to fetch project details: " ++ toString resp.status ++
      ", " ++ resp.body)

/-- `get_project_namespace` including its internal `get_token()` call and
the request it then issues: the server is modelled as a function from the
`Authorization` header the script sends to the response it returns, which
records that the listing request is issued with exactly that header. -/
def get_project_namespace_flow (project_uuid : String) (auth : AuthResponse)
    (server : String → ProjectsResponse) : Except String (Option String) :=
  match get_token auth with
  | Except.error e => Except.error e
  | Except.ok token => get_project_namespace project_uuid (server (auth_header token))

/-- Python truthiness of the optional `branch` argument: `if branch:` is
false for `None` and for the empty string. -/
def branch_truthy : Option String → Bool
  | none => false
  | some s => !(s == "")

/-- The findings filter built by `get_findings_with_tag`
(src/main.py lines 90-97). -/
def context_filter (project_uuid tag : String) (branch : Option String) : String :=
  if branch_truthy branch then
    "context.id==" ++ branch.getD "" ++ " and spec.project_uuid==" ++ project_uuid ++
      " and meta.tags CONTAINS \"" ++ tag ++ "\""
  else
    "context.type==CONTEXT_TYPE_MAIN and spec.project_uuid==" ++ project_uuid ++
      " and meta.tags CONTAINS \"" ++ tag ++ "\""

/-- The `list_parameters.*` query parameters of the findings listing
request (src/main.py lines 100-103). -/
structure ListParams where
  filter : String
  traverse : String
deriving Repr

/-- Query parameters sent by `get_findings_with_tag`. -/
def findings_query_params (project_uuid tag : String) (branch : Option String) :
    ListParams :=
  { filter := context_filter project_uuid tag branch, traverse := "true" }

/-- A finding as read by the update loop: `finding.get('uuid')` and
`finding.get('meta', {}).get('tags', [])`; both fields may be absent. -/
structure Finding where
  uuid : Option String
  meta_tags : Option (List String)
deriving Repr, DecidableEq

/-- `existing_tags = finding.get('meta', {}).get('tags', [])`
(src/main.py line 134). -/
def finding_tags (f : Finding) : List String := f.meta_tags.getD []

/-- The PATCH payload built for one finding (src/main.py lines 146-156):
field mask `"meta.tags"`, the finding's uuid and the recomputed tag list. -/
structure PatchRequest where
  update_mask : String
  uuid : Option String
  tags : List String
deriving Repr, DecidableEq

/-- Log lines of the per-finding loop (src/main.py lines 139, 144, 161, 163). -/
def removed_log (old_tag : String) (uuid : Option String) : String :=
  "   Removed tag '" ++ old_tag ++ "' from finding " ++ py_str uuid

def added_log (new_tag : String) (uuid : Option String) : String :=
  "   Added tag '" ++ new_tag ++ "' to finding " ++ py_str uuid

def success_log (uuid : Option String) : String :=
  "✅ Successfully updated finding " ++ py_str uuid

def fail_log (uuid : Option String) (status : Nat) (body : String) : String :=
  "❌ Failed to update finding " ++ py_str uuid ++ ": " ++ toString status ++ ", " ++ body

/-- The body of the per-finding loop before the PATCH is issued
(src/main.py lines 133-156): read the tags, recompute them, build the
payload; also the progress lines printed while doing so. -/
def process_finding (old_tag new_tag : String) (f : Finding) :
    PatchRequest × List String :=
  let tags0 := finding_tags f
  ({ update_mask := "meta.tags", uuid := f.uuid, tags := recompute_tags old_tag new_tag tags0 },
   (if old_tag ∈ tags0 then [removed_log old_tag f.uuid] else []) ++
   (if new_tag ∈ (if old_tag ∈ tags0 then tags0.erase old_tag else tags0) then []
    else [added_log new_tag f.uuid]))

/-- The per-finding loop (src/main.py lines 131-163) run over the findings
zipped with the status and body of the PATCH response each one receives.
Returns `updated_count`, the PATCH requests issued in order, and the log
lines in order. -/
def update_loop (old_tag new_tag : String) :
    List (Finding × Nat × String) → Nat × List PatchRequest × List String
  | [] => (0, [], [])
  | (f, st, body) :: rest =>
    let (req, plogs) := process_finding old_tag new_tag f
    let outcome := if st == 200 then [success_log f.uuid] else [fail_log f.uuid st body]
    let (c, ps, ls) := update_loop old_tag new_tag rest
    ((if st == 200 then c + 1 else c), req :: ps, plogs ++ outcome ++ ls)

/-- Final report line (src/main.py line 165). -/
def report_log (updated total : Nat) : String :=
  "\n✅ Updated " ++ toString updated ++ " out of " ++ toString total ++ " findings"

/-- Log line of the zero-findings early return (src/main.py line 120). -/
def no_findings_log (old_tag project_uuid : String) : String :=
  "No findings found with tag '" ++ old_tag ++ "' in project " ++ project_uuid

/-- Log line of the orchestrator's `except` clause (src/main.py line 168). -/
def error_log (project_uuid : String) (msg : String) : String :=
  "❌ Error updating findings in project " ++ project_uuid ++ ": " ++ msg

/-- `update_finding_tags` (src/main.py lines 114-168). The fallible prefix
of the `try` block — `get_findings_with_tag` (which itself authenticates
and resolves the namespace) and the loop's `get_token()` — is summarised
by `fetch`: either the exception it raises, or the findings list zipped
with the PATCH responses the loop will receive. Any raised exception is
caught by the `except` clause, logged with the project UUID and the
message, and turned into a normal return. Returns `updated_count`, the
PATCH requests issued, and the logs. -/
def update_finding_tags (project_uuid old_tag new_tag : String)
    (fetch : Except String (List (Finding × Nat × String))) :
    Nat × List PatchRequest × List String :=
  match fetch with
  | Except.error e => (0, [], [error_log project_uuid e])
  | Except.ok [] => (0, [], [no_findings_log old_tag project_uuid])
  | Except.ok (it :: its) =>
    let (c, ps, ls) := update_loop old_tag new_tag (it :: its)
    (c, ps, ls ++ [report_log c (it :: its).length])

/-- The `__main__` driver (src/main.py lines 214-227): validate both tags,
exiting with status 1 on a `ValueError`; otherwise run
`update_finding_tags` (which never raises) and finish with exit status 0.
Returns (exit code, whether the API-calling flow ran, PATCH requests
issued, logs). -/
def run_main (old_tag new_tag project_uuid : String)
    (fetch : Except String (List (Finding × Nat × String))) :
    Nat × Bool × List PatchRequest × List String :=
  match validate_tag old_tag "Old tag" with
  | Except.error e => (1, false, [], ["❌ Tag validation error: " ++ e])
  | Except.ok _ =>
    match validate_tag new_tag "New tag" with
    | Except.error e => (1, false, [], ["❌ Tag validation error: " ++ e])
    | Except.ok _ =>
      let (_, ps, ls) := update_finding_tags project_uuid old_tag new_tag fetch
      (0, true, ps, ls ++ ["✅ Findings processed!"])

/-! ## Helper lemmas -/

/-- Under the hypotheses of C1 the recomputation is literally
`S.erase o ++ [n]`. -/
theorem recompute_tags_eq_erase_append (o n : String) (S : List String)
    (hcount : S.count o = 1) (hn : n ∉ S) :
    recompute_tags o n S = S.erase o ++ [n] := by
  have ho : o ∈ S := by
    by_contra h
    rw [List.count_eq_zero_of_not_mem h] at hcount
    exact absurd hcount (by decide)
  have hne : n ∉ S.erase o := fun h => hn (List.mem_of_mem_erase h)
  simp only [recompute_tags, if_pos ho, if_neg hne]

/-- Membership in `S.erase o` when `o` occurs exactly once in `S`. -/
theorem mem_erase_iff_of_count_one (o : String) (S : List String)
    (hcount : S.count o = 1) :
    ∀ x, x ∈ S.erase o ↔ (x ∈ S ∧ x ≠ o) := by
  intro x
  by_cases hx : x = o
  · subst hx
    constructor
    · intro hmem
      exfalso
      have h0 : (S.erase x).count x = S.count x - 1 := List.count_erase_self x S
      rw [hcount] at h0
      exact (List.count_eq_zero.mp h0) hmem
    · rintro ⟨_, hxx⟩
      exact absurd rfl hxx
  · rw [List.mem_erase_of_ne hx]
    exact ⟨fun h => ⟨h, hx⟩, fun h => h.1⟩

/-! ## Claim theorems -/

/-- C1: for a finding whose tag sequence contains the old tag exactly once
and not the new tag, the recomputed tag list carried by the PATCH payload
has exactly the elements `(S - \x7bo\x7d) ∪ \x7bn\x7d`; in particular the old tag is
gone and the new tag present. -/
theorem update_replaces_old_tag_with_new (o n : String) (f : Finding)
    (hcount : (finding_tags f).count o = 1) (hn : n ∉ finding_tags f) :
    (∀ x, x ∈ (process_finding o n f).1.tags ↔
        (x ∈ finding_tags f ∧ x ≠ o) ∨ x = n) ∧
    o ∉ (process_finding o n f).1.tags ∧
    n ∈ (process_finding o n f).1.tags := by
  have hreq : (process_finding o n f).1.tags = recompute_tags o n (finding_tags f) := rfl
  have ho : o ∈ finding_tags f := by
    by_contra h
    rw [List.count_eq_zero_of_not_mem h] at hcount
    exact absurd hcount (by decide)
  have hform := recompute_tags_eq_erase_append o n (finding_tags f) hcount hn
  have hmem : ∀ x, x ∈ (process_finding o n f).1.tags ↔
      (x ∈ finding_tags f ∧ x ≠ o) ∨ x = n := by
    intro x
    rw [hreq, hform, List.mem_append, List.mem_singleton,
      mem_erase_iff_of_count_one o (finding_tags f) hcount x]
  have hon : o ≠ n := fun h => hn (h ▸ ho)
  refine ⟨hmem, ?_, ?_⟩
  · intro hmem'
    rcases (hmem o).mp hmem' with ⟨_, h⟩ | h
    · exact h rfl
    · exact hon h
  · exact (hmem n).mpr (Or.inr rfl)

/-- C1 witness: old tag `"dev-repo"` occurring once, new tag `"prod-repo"`
absent. -/
theorem update_replaces_old_tag_with_new_witness :
    "dev-repo" ∉ (process_finding "dev-repo" "prod-repo"
        ⟨some "f1", some ["dev-repo", "critical"]⟩).1.tags ∧
    "prod-repo" ∈ (process_finding "dev-repo" "prod-repo"
        ⟨some "f1", some ["dev-repo", "critical"]⟩).1.tags :=
  (update_replaces_old_tag_with_new "dev-repo" "prod-repo"
    ⟨some "f1", some ["dev-repo", "critical"]⟩ (by decide) (by decide)).2

/-- C2 (code bug): `validate_tag` accepts the two-character tag
`"a\n"` even though `'\n'` is outside the documented character set,
because Python's `$` anchor also matches just before a trailing newline. -/
theorem validate_tag_accepts_trailing_newline :
    validate_tag "a\n" "Old tag" = Except.ok true ∧
    '\n' ∈ "a\n".toList ∧ isValidTagChar '\n' = false :=
  ⟨rfl, by decide, rfl⟩

/-- C9: applying the recomputation to a tag list that already lacks the
old tag and already contains the new tag leaves it unchanged. -/
theorem recompute_tags_idempotent (o n : String) (S : List String)
    (ho : o ∉ S) (hn : n ∈ S) : recompute_tags o n S = S := by
  simp only [recompute_tags, if_neg ho, if_pos hn]

/-- C9 witness: a second pass over the already-updated tag list. -/
theorem recompute_tags_idempotent_witness :
    recompute_tags "dev-repo" "prod-repo" ["critical", "prod-repo"] =
      ["critical", "prod-repo"] :=
  recompute_tags_idempotent "dev-repo" "prod-repo" ["critical", "prod-repo"]
    (by decide) (by decide)

/-- C5: with zero findings matching the old tag, the updater issues zero
PATCH requests, reports zero updates via the no-findings message, and
returns normally. -/
theorem zero_findings_zero_patches (project_uuid o n : String) :
    update_finding_tags project_uuid o n (Except.ok []) =
      (0, [], ["No findings found with tag '" ++ o ++ "' in project " ++ project_uuid]) :=
  rfl

/-- C6 counterexample: with a supplied but empty branch argument the
filter uses the main-context predicate, not `context.id==`. -/
theorem empty_branch_filter_counterexample :
    context_filter "p1" "t1" (some "") =
      "context.type==CONTEXT_TYPE_MAIN and spec.project_uuid==p1 and meta.tags CONTAINS \"t1\"" ∧
    context_filter "p1" "t1" (some "") ≠
      "context.id== and spec.project_uuid==p1 and meta.tags CONTAINS \"t1\"" :=
  ⟨rfl, by decide⟩

/-- C6 (amended): the findings query filter uses `context.id==<branch>`
when a non-empty branch is supplied and `context.type==CONTEXT_TYPE_MAIN`
otherwise (no branch, or an empty-string branch), conjoined by `and` with
the project-uuid and tag-containment predicates, and traversal is
enabled. -/
theorem findings_filter_construction (project_uuid tag : String)
    (branch : Option String) :
    (findings_query_params project_uuid tag branch).traverse = "true" ∧
    (∀ b, branch = some b → b ≠ "" →
      (findings_query_params project_uuid tag branch).filter =
        "context.id==" ++ b ++ " and spec.project_uuid==" ++ project_uuid ++
          " and meta.tags CONTAINS \"" ++ tag ++ "\"") ∧
    (branch = none ∨ branch = some "" →
      (findings_query_params project_uuid tag branch).filter =
        "context.type==CONTEXT_TYPE_MAIN and spec.project_uuid==" ++ project_uuid ++
          " and meta.tags CONTAINS \"" ++ tag ++ "\"") := by
  refine ⟨rfl, ?_, ?_⟩
  · intro b hb hne
    subst hb
    have hbt : branch_truthy (some b) = true := by
      simp [branch_truthy, hne]
    simp [findings_query_params, context_filter, hbt]
  · rintro (h | h) <;> subst h <;> rfl

/-- C6 witness: a non-empty branch and the no-branch case. -/
theorem findings_filter_construction_witness :
    (findings_query_params "p1" "t1" (some "feature-branch")).filter =
      "context.id==feature-branch and spec.project_uuid==p1 and meta.tags CONTAINS \"t1\"" ∧
    (findings_query_params "p1" "t1" none).filter =
      "context.type==CONTEXT_TYPE_MAIN and spec.project_uuid==p1 and meta.tags CONTAINS \"t1\"" :=
  ⟨((findings_filter_construction "p1" "t1" (some "feature-branch")).2.1
      "feature-branch" rfl (by decide)).trans rfl,
   (findings_filter_construction "p1" "t1" none).2.2 (Or.inl rfl)⟩

/-- Unfolding equation of `update_loop` on a cons cell. -/
theorem update_loop_cons (o n : String) (f : Finding) (st : Nat) (body : String)
    (tl : List (Finding × Nat × String)) :
    update_loop o n ((f, st, body) :: tl) =
      ((if st == 200 then (update_loop o n tl).1 + 1 else (update_loop o n tl).1),
       (process_finding o n f).1 :: (update_loop o n tl).2.1,
       (process_finding o n f).2 ++
         (if st == 200 then [success_log f.uuid] else [fail_log f.uuid st body]) ++
         (update_loop o n tl).2.2) :=
  rfl

/-- Behaviour of the per-finding loop: one PATCH per finding, successes
are exactly the 200 responses, every non-200 response is logged. -/
theorem update_loop_spec (o n : String) (items : List (Finding × Nat × String)) :
    (update_loop o n items).2.1.length = items.length ∧
    (update_loop o n items).1 = items.countP (fun it => it.2.1 == 200) ∧
    ∀ it ∈ items, it.2.1 ≠ 200 →
      fail_log it.1.uuid it.2.1 it.2.2 ∈ (update_loop o n items).2.2 := by
  induction items with
  | nil =>
    exact ⟨rfl, rfl, fun it h => absurd h (List.not_mem_nil it)⟩
  | cons hd tl ih =>
    obtain ⟨f, st, body⟩ := hd
    rw [update_loop_cons]
    refine ⟨?_, ?_, ?_⟩
    · simp [ih.1]
    · rw [List.countP_cons]
      by_cases hst : st = 200
      · simp [hst, ih.2.1]
      · have hb : (st == 200) = false := beq_eq_false_iff_ne.mpr hst
        simp [hb, ih.2.1]
    · intro it hit hne
      rcases List.mem_cons.mp hit with heq | htl
      · subst heq
        have hb : (st == 200) = false := beq_eq_false_iff_ne.mpr hne
        rw [hb]
        simp
      · have := ih.2.2 it htl hne
        simp [List.mem_append, this]

/-- C3: a non-200 PATCH response does not abort the loop: every finding
still gets its PATCH, only 200 responses are counted, each failure is
logged with status and body, and the final log line is the
"Updated <count> out of <total> findings" report. -/
theorem patch_failure_does_not_abort_loop (project_uuid o n : String)
    (items : List (Finding × Nat × String)) (hne : items ≠ []) :
    (update_loop o n items).2.1.length = items.length ∧
    (update_loop o n items).1 = items.countP (fun it => it.2.1 == 200) ∧
    (∀ it ∈ items, it.2.1 ≠ 200 →
      fail_log it.1.uuid it.2.1 it.2.2 ∈ (update_loop o n items).2.2) ∧
    (update_finding_tags project_uuid o n (Except.ok items)).2.2.getLast? =
      some (report_log (items.countP (fun it => it.2.1 == 200)) items.length) := by
  refine ⟨(update_loop_spec o n items).1, (update_loop_spec o n items).2.1,
    (update_loop_spec o n items).2.2, ?_⟩
  cases items with
  | nil => exact absurd rfl hne
  | cons it its =>
    have hlogs : (update_finding_tags project_uuid o n (Except.ok (it :: its))).2.2 =
        (update_loop o n (it :: its)).2.2 ++
          [report_log (update_loop o n (it :: its)).1 (it :: its).length] := rfl
    rw [hlogs, List.getLast?_concat, (update_loop_spec o n (it :: its)).2.1]

/-- C3 witness data: three matched findings, the second failing with
HTTP 500. -/
def three_findings_one_failure : List (Finding × Nat × String) :=
  [({ uuid := some "f1", meta_tags := some ["dev-repo"] }, 200, ""),
   ({ uuid := some "f2", meta_tags := some ["dev-repo"] }, 500, "internal error"),
   ({ uuid := some "f3", meta_tags := some ["dev-repo"] }, 200, "")]

/-- C3 witness: one failure among three matches still patches all three
and reports "Updated 2 out of 3 findings". -/
theorem patch_failure_does_not_abort_loop_witness :
    (update_loop "dev-repo" "prod-repo" three_findings_one_failure).2.1.length = 3 ∧
    (update_loop "dev-repo" "prod-repo" three_findings_one_failure).1 = 2 ∧
    (update_finding_tags "p1" "dev-repo" "prod-repo"
        (Except.ok three_findings_one_failure)).2.2.getLast? =
      some "\n✅ Updated 2 out of 3 findings" := by
  have h := patch_failure_does_not_abort_loop "p1" "dev-repo" "prod-repo"
    three_findings_one_failure (List.cons_ne_nil _ _)
  exact ⟨h.1.trans rfl, (h.2.1).trans (by decide), (h.2.2.2).trans (by decide)⟩

/-- `run_main` when the old tag fails validation. -/
theorem run_main_err_old (old_tag new_tag project_uuid : String)
    (fetch : Except String (List (Finding × Nat × String))) (e1 : String)
    (h1 : validate_tag old_tag "Old tag" = Except.error e1) :
    run_main old_tag new_tag project_uuid fetch =
      (1, false, [], ["❌ Tag validation error: " ++ e1]) := by
  unfold run_main
  rw [h1]

/-- `run_main` when the old tag passes and the new tag fails validation. -/
theorem run_main_err_new (old_tag new_tag project_uuid : String)
    (fetch : Except String (List (Finding × Nat × String))) (b1 : Bool) (e2 : String)
    (h1 : validate_tag old_tag "Old tag" = Except.ok b1)
    (h2 : validate_tag new_tag "New tag" = Except.error e2) :
    run_main old_tag new_tag project_uuid fetch =
      (1, false, [], ["❌ Tag validation error: " ++ e2]) := by
  unfold run_main
  rw [h1, h2]

/-- `run_main` when both tags pass validation. -/
theorem run_main_ok (old_tag new_tag project_uuid : String)
    (fetch : Except String (List (Finding × Nat × String))) (b1 b2 : Bool)
    (h1 : validate_tag old_tag "Old tag" = Except.ok b1)
    (h2 : validate_tag new_tag "New tag" = Except.ok b2) :
    run_main old_tag new_tag project_uuid fetch =
      (0, true, (update_finding_tags project_uuid old_tag new_tag fetch).2.1,
       (update_finding_tags project_uuid old_tag new_tag fetch).2.2 ++
         ["✅ Findings processed!"]) := by
  unfold run_main
  rw [h1, h2]

/-- C4: the exit code is 1 exactly when validation of the old or new tag
fails; in that case the API-calling flow never runs and no PATCH is
issued; otherwise the exit code is 0, and when the update flow raises,
the exception is caught, logged with the project UUID and message, and
the run still exits 0. -/
theorem exit_code_one_iff_tag_validation_fails (old_tag new_tag project_uuid : String)
    (fetch : Except String (List (Finding × Nat × String))) :
    ((run_main old_tag new_tag project_uuid fetch).1 = 1 ↔
      (∃ e, validate_tag old_tag "Old tag" = Except.error e) ∨
      (∃ e, validate_tag new_tag "New tag" = Except.error e)) ∧
    ((run_main old_tag new_tag project_uuid fetch).1 = 1 ∨
      (run_main old_tag new_tag project_uuid fetch).1 = 0) ∧
    ((run_main old_tag new_tag project_uuid fetch).1 = 1 →
      (run_main old_tag new_tag project_uuid fetch).2.1 = false ∧
      (run_main old_tag new_tag project_uuid fetch).2.2.1 = []) ∧
    (∀ e, fetch = Except.error e →
      (∀ e2, validate_tag old_tag "Old tag" ≠ Except.error e2) →
      (∀ e2, validate_tag new_tag "New tag" ≠ Except.error e2) →
      (run_main old_tag new_tag project_uuid fetch).1 = 0 ∧
      error_log project_uuid e ∈ (run_main old_tag new_tag project_uuid fetch).2.2.2) := by
  cases h1 : validate_tag old_tag "Old tag" with
  | error e1 =>
    have hr := run_main_err_old old_tag new_tag project_uuid fetch e1 h1
    refine ⟨⟨fun _ => Or.inl ⟨e1, rfl⟩, fun _ => by rw [hr]⟩, Or.inl (by rw [hr]),
      fun _ => by rw [hr]; exact ⟨rfl, rfl⟩, fun e _ hold _ => absurd rfl (hold e1)⟩
  | ok b1 =>
    cases h2 : validate_tag new_tag "New tag" with
    | error e2 =>
      have hr := run_main_err_new old_tag new_tag project_uuid fetch b1 e2 h1 h2
      refine ⟨⟨fun _ => Or.inr ⟨e2, rfl⟩, fun _ => by rw [hr]⟩, Or.inl (by rw [hr]),
        fun _ => by rw [hr]; exact ⟨rfl, rfl⟩, fun e _ _ hnew => absurd rfl (hnew e2)⟩
    | ok b2 =>
      have hr := run_main_ok old_tag new_tag project_uuid fetch b1 b2 h1 h2
      refine ⟨⟨?_, ?_⟩, Or.inr (by rw [hr]), ?_, ?_⟩
      · intro h
        rw [hr] at h
        exact absurd h Nat.zero_ne_one
      · rintro (⟨e, he⟩ | ⟨e, he⟩)
        · exact Except.noConfusion he
        · exact Except.noConfusion he
      · intro h
        rw [hr] at h
        exact absurd h Nat.zero_ne_one
      · intro e hf _ _
        subst hf
        rw [hr]
        refine ⟨rfl, ?_⟩
        have hlog : (update_finding_tags project_uuid old_tag new_tag (Except.error e)).2.2 =
            [error_log project_uuid e] := rfl
        rw [hlog]
        simp

/-- C4 witness: an empty old tag exits 1; a token-fetch failure with valid
tags is logged and exits 0. -/
theorem exit_code_one_iff_tag_validation_fails_witness :
    (run_main "" "new-tag" "p1" (Except.ok [])).1 = 1 ∧
    (run_main "old-tag" "new-tag" "p1" (Except.error "Failed to get token: 401, denied")).1 = 0 ∧
    error_log "p1" "Failed to get token: 401, denied" ∈
      (run_main "old-tag" "new-tag" "p1"
        (Except.error "Failed to get token: 401, denied")).2.2.2 := by
  have hold : validate_tag "old-tag" "Old tag" = Except.ok true := rfl
  have hnew : validate_tag "new-tag" "New tag" = Except.ok true := rfl
  have h2 := (exit_code_one_iff_tag_validation_fails "old-tag" "new-tag" "p1"
    (Except.error "Failed to get token: 401, denied")).2.2.2
    "Failed to get token: 401, denied" rfl
    (fun e2 he => Except.noConfusion (hold.symm.trans he))
    (fun e2 he => Except.noConfusion (hnew.symm.trans he))
  exact ⟨(exit_code_one_iff_tag_validation_fails "" "new-tag" "p1" (Except.ok [])).1.mpr
    (Or.inl ⟨"Old tag cannot be empty", rfl⟩), h2.1, h2.2⟩

/-- C7: the authenticator consumes exactly one response (no retry); on 200
it returns the token field of the JSON body, on any other status it fails
with a message carrying the status code and the raw body. -/
theorem get_token_success_and_failure (r : AuthResponse) (rest : List AuthResponse) :
    get_token_run (r :: rest) = some (get_token r, rest) ∧
    (r.status = 200 → get_token r = Except.ok (json_get r.json "token")) ∧
    (r.status ≠ 200 → get_token r =
      Except.error ("Failed to get token: " ++ toString r.status ++ ", " ++ r.body)) := by
  refine ⟨rfl, ?_, ?_⟩
  · intro h
    simp [get_token, h]
  · intro h
    have hb : (r.status == 200) = false := beq_eq_false_iff_ne.mpr h
    simp [get_token, hb]

/-- C7 witness: a 200 response yields its token; a 401 yields the error
with status and body. -/
theorem get_token_success_and_failure_witness :
    get_token_run [⟨200, "ok-body", [("token", "tok123")]⟩] =
      some (Except.ok (some "tok123"), []) ∧
    get_token ⟨401, "denied", []⟩ = Except.error "Failed to get token: 401, denied" := by
  have h1 := get_token_success_and_failure ⟨200, "ok-body", [("token", "tok123")]⟩ []
  have h2 := get_token_success_and_failure ⟨401, "denied", []⟩ []
  refine ⟨?_, (h2.2.2 (by decide)).trans rfl⟩
  rw [h1.1, h1.2.1 rfl]
  rfl

/-- C8: the namespace resolver raises not-found exactly on an empty list
in a 200 response; a non-empty list yields the first project's tenant
namespace with no ambiguity check; a non-200 response raises with status
and body. -/
theorem project_namespace_resolution (project_uuid : String) (resp : ProjectsResponse) :
    (resp.status = 200 → resp.objects = [] →
      get_project_namespace project_uuid resp =
        Except.error ("No project found with UUID: " ++ project_uuid)) ∧
    (∀ p ps, resp.status = 200 → resp.objects = p :: ps →
      get_project_namespace project_uuid resp = Except.ok p.tenant_namespace) ∧
    (resp.status ≠ 200 →
      get_project_namespace project_uuid resp =
        Except.error ("Failed to fetch project details: " ++ toString resp.status ++
          ", " ++ resp.body)) := by
  refine ⟨?_, ?_, ?_⟩
  · intro hs hobj
    simp [get_project_namespace, hs, hobj]
  · intro p ps hs hobj
    simp [get_project_namespace, hs, hobj]
  · intro hs
    have hb : (resp.status == 200) = false := beq_eq_false_iff_ne.mpr hs
    simp [get_project_namespace, hb]

/-- C8 witness: empty 200 list, two-element 200 list (first wins), and a
403 response. -/
theorem project_namespace_resolution_witness :
    get_project_namespace "u1" ⟨200, "b", []⟩ =
      Except.error "No project found with UUID: u1" ∧
    get_project_namespace "u1" ⟨200, "b", [⟨some "ns1"⟩, ⟨some "ns2"⟩]⟩ =
      Except.ok (some "ns1") ∧
    get_project_namespace "u1" ⟨403, "forbidden", []⟩ =
      Except.error "Failed to fetch project details: 403, forbidden" := by
  refine ⟨((project_namespace_resolution "u1" ⟨200, "b", []⟩).1 rfl rfl).trans rfl,
    (project_namespace_resolution "u1" ⟨200, "b", [⟨some "ns1"⟩, ⟨some "ns2"⟩]⟩).2.1
      ⟨some "ns1"⟩ [⟨some "ns2"⟩] rfl rfl,
    ((project_namespace_resolution "u1" ⟨403, "forbidden", []⟩).2.2 (by decide)).trans rfl⟩

/-- C10: a 200 authentication response without a `token` field does not
fail: `get_token` returns `none`, and the next request is issued with the
literal header `"Bearer None"` instead of aborting. -/
theorem missing_token_field_not_fatal (project_uuid : String) (auth : AuthResponse)
    (server : String → ProjectsResponse)
    (hs : auth.status = 200) (ht : json_get auth.json "token" = none) :
    get_token auth = Except.ok none ∧
    get_project_namespace_flow project_uuid auth server =
      get_project_namespace project_uuid (server "Bearer None") := by
  have h1 : get_token auth = Except.ok none := by
    simp [get_token, hs, ht]
  refine ⟨h1, ?_⟩
  unfold get_project_namespace_flow
  rw [h1]
  rfl

/-- C10 witness: an empty JSON body on 200 leads to a listing request with
header `"Bearer None"` that still resolves a namespace. -/
theorem missing_token_field_not_fatal_witness :
    get_token ⟨200, "", []⟩ = Except.ok none ∧
    get_project_namespace_flow "u1" ⟨200, "", []⟩
        (fun _ => ⟨200, "", [⟨some "ns1"⟩]⟩) =
      get_project_namespace "u1" ⟨200, "", [⟨some "ns1"⟩]⟩ :=
  missing_token_field_not_fatal "u1" ⟨200, "", []⟩
    (fun _ => ⟨200, "", [⟨some "ns1"⟩]⟩) rfl rfl

end UpdateFindingTags
